import Mathlib

/-!
Shallow embedding of `src/tiered_notifier.py` (tiered notifications for a
hook-driven notifier): notification tiers, the session activity store, the
router, the delayed-dispatch script, and the entry point.

External effects (subprocess runs, HTTP posts, the contents of the activity
file, wall-clock time) are passed in explicitly; Python exceptions that can
escape a function are modelled with `Except`.
-/

namespace TieredNotifier

/-- Outcome of a `subprocess.run(cmd, check=True, ...)` call: exit code 0,
a nonzero exit (which raises `CalledProcessError`), or a missing executable
(which raises `FileNotFoundError`). -/
inductive ProcResult
  | ok
  | calledProcessError
  | fileNotFound
  deriving DecidableEq

/-- A Python exception escaping a modelled call. -/
inductive PyExc
  | fileNotFoundError
  deriving DecidableEq

/-- `MacOSNotificationTier.send_notification` (src/tiered_notifier.py:54-80):
runs `terminal-notifier`; only `subprocess.CalledProcessError` is caught, in
which case it falls back to `osascript` (again catching only
`CalledProcessError`).  `primary` is the outcome of the `terminal-notifier`
run, `fallback` the outcome of the `osascript` run. -/
def macosSend (primary fallback : ProcResult) : Except PyExc Bool :=
  match primary with
  | .ok => .ok true
  | .calledProcessError =>
    match fallback with
    | .ok => .ok true
    | .calledProcessError => .ok false
    | .fileNotFound => .error .fileNotFoundError
  | .fileNotFound => .error .fileNotFoundError

/-- Outcome of the `requests.post` call in `NtfyNotificationTier`: an HTTP
status code, or a raised `requests.RequestException`. -/
inductive HttpResult
  | status (code : Nat)
  | requestException
  deriving DecidableEq

/-- `NtfyNotificationTier.send_notification` (src/tiered_notifier.py:100-111):
posts to the ntfy server; `requests.RequestException` is caught and yields
`false`; otherwise the result is `status_code == 200`. -/
def ntfySend (resp : HttpResult) : Bool :=
  match resp with
  | .status code => code == 200
  | .requestException => false

/-- Contents of `~/.claude/session_activity.json` as seen by a reader:
missing, present but not valid JSON, or a parsed mapping from session id to
last-activity timestamp (seconds; modelled as `Int`). -/
inductive ActivityFile
  | missing
  | unparsable
  | data (entries : List (String × Int))
  deriving DecidableEq

/-- Association-list lookup, modelling Python `dict.get`. -/
def assocGet {α : Type} : List (String × α) → String → Option α
  | [], _ => none
  | (k', v') :: rest, k => if k' = k then some v' else assocGet rest k

/-- Association-list update, modelling Python `dict[k] = v`. -/
def setEntry {α : Type} : List (String × α) → String → α → List (String × α)
  | [], k, v => [(k, v)]
  | (k', v') :: rest, k, v =>
    if k' = k then (k, v) :: rest else (k', v') :: setEntry rest k v

/-- `SessionTracker.mark_activity` (src/tiered_notifier.py:129-142): reads the
file if it exists, sets `activity_data[session_id] = time.time()`, writes the
whole mapping back.  The body is wrapped in `try/except Exception: pass`, so
an unparsable file makes `json.load` raise and the method silently no-ops,
leaving the file unchanged. -/
def mark_activity (file : ActivityFile) (session_id : String) (now : Int) :
    ActivityFile :=
  match file with
  | .missing => .data (setEntry [] session_id now)
  | .unparsable => .unparsable
  | .data m => .data (setEntry m session_id now)

/-- `SessionTracker.is_session_idle` (src/tiered_notifier.py:144-159): true if
the file is missing, unparsable, or has no entry for the session, or if
`now - last_activity > idle_threshold`; false otherwise. -/
def is_session_idle (file : ActivityFile) (session_id : String)
    (idle_threshold : Int) (now : Int) : Bool :=
  match file with
  | .missing => true
  | .unparsable => true
  | .data m =>
    match assocGet m session_id with
    | none => true
    | some last => now - last > idle_threshold

/-- Lookup of a session's recorded timestamp in the on-disk store (none when
the file is missing or unparsable). -/
def fileLookup (file : ActivityFile) (k : String) : Option Int :=
  match file with
  | .data m => assocGet m k
  | _ => none

/-- Fold of `mark_activity` over a list of (session id, timestamp) records. -/
def markAll (ps : List (String × Int)) (file : ActivityFile) : ActivityFile :=
  ps.foldl (fun acc p => mark_activity acc p.1 p.2) file

/-- Opaque per-tier settings (`tier_configs[name]`): arbitrary key/value
strings. -/
abbrev TierCfg : Type := List (String × String)

/-- `NotificationConfig` (src/tiered_notifier.py:20-34), restricted to the
fields the router reads.  `default_tier` only matters for `send_notification`,
which no claim exercises, so it is omitted. -/
structure NotificationConfig where
  enabled_tiers : List String
  delayed_tiers : List String
  delay_seconds : Int
  tier_configs : List (String × TierCfg)

/-- Behaviour of one named tier as the router observes it: whether the name is
a key of `self.tiers`, what `is_available()` returns, and what
`send_notification` does (returns a Bool or raises). -/
structure TierBehavior where
  known : Bool
  available : Bool
  send : Except PyExc Bool

/-- Python truthiness of an optional string (`if session_id:`): `None` and
`""` are falsy. -/
def truthy : Option String → Bool
  | none => false
  | some s => !(s == "")

/-- The immediate tiers of `send_tiered_notification`
(src/tiered_notifier.py:229-231): enabled tiers not in `delayed_tiers`. -/
def immediateTiers (cfg : NotificationConfig) : List String :=
  cfg.enabled_tiers.filter (fun t => !cfg.delayed_tiers.contains t)

/-- The immediate-send loop of `send_tiered_notification`
(src/tiered_notifier.py:232-237): for each tier name that is a key of
`self.tiers` and reports available, call `send_notification`; `success`
becomes true if any such call returned true.  An exception raised by a send
escapes the loop.  Returns (success, tiers on which a send was attempted). -/
def runImmediate (env : String → TierBehavior) :
    List String → Except PyExc (Bool × List String)
  | [] => .ok (false, [])
  | t :: rest =>
    if (env t).known && (env t).available then
      match (env t).send with
      | .error e => .error e
      | .ok b =>
        match runImmediate env rest with
        | .error e => .error e
        | .ok (s, ats) => .ok (b || s, t :: ats)
    else
      runImmediate env rest

/-- The snapshot handed to the delay script
(src/tiered_notifier.py:281): `[(name, tier_configs.get(name, {})) for name
in self.config.delayed_tiers]` — every configured delayed tier, whether or
not it is enabled. -/
def snapshotTiers (cfg : NotificationConfig) : List (String × TierCfg) :=
  cfg.delayed_tiers.map (fun n => (n, (assocGet cfg.tier_configs n).getD []))

/-- Result of one `send_tiered_notification` call: the returned Bool, the
immediate tiers on which a send was attempted, and the snapshot handed to
`_schedule_delayed_notifications` (none when no scheduling happened). -/
structure TieredResult where
  success : Bool
  attempts : List String
  scheduled : Option (List (String × TierCfg))
  deriving DecidableEq

/-- `TieredNotifier.send_tiered_notification` (src/tiered_notifier.py:222-246):
runs the immediate tiers, then, `if session_id and self.config.delayed_tiers:`,
hands the snapshot to the scheduler.  An exception from an immediate send
escapes (and then no scheduling happens). -/
def send_tiered_notification (cfg : NotificationConfig)
    (env : String → TierBehavior) (session_id : Option String) :
    Except PyExc TieredResult :=
  match runImmediate env (immediateTiers cfg) with
  | .error e => .error e
  | .ok (success, attempts) =>
    .ok ⟨success, attempts,
      if truthy session_id && !cfg.delayed_tiers.isEmpty then
        some (snapshotTiers cfg)
      else none⟩

/-- The idle check inside the generated delay script
(src/tiered_notifier.py:264-276): `is_idle` starts true and is set to
`(time.time() - last_activity) > delay` only when the file exists, parses,
and holds an entry for the session; a parse error leaves `is_idle = True`. -/
def scriptIsIdle (file : ActivityFile) (session_id : String)
    (delay now : Int) : Bool :=
  match file with
  | .missing => true
  | .unparsable => true
  | .data m =>
    match assocGet m session_id with
    | none => true
    | some last => now - last > delay

/-- Outcome of one `requests.post` inside the delay script: completes or
raises. -/
inductive PostOutcome
  | posted
  | raised
  deriving DecidableEq

/-- The send loop of the generated delay script
(src/tiered_notifier.py:279-298): a single `try:` wraps the whole `for` loop
over the snapshot; only entries named "ntfy" issue a post.  `oc i` is the
outcome of the post attempted at snapshot position `i`; a raised error is
caught by the loop-wide `except`, so the remaining entries are skipped.
Returns the snapshot positions at which a post was attempted. -/
def runDelayedSends (oc : Nat → PostOutcome) :
    List (String × TierCfg) → Nat → List Nat
  | [], _ => []
  | (name, _) :: rest, i =>
    if name == "ntfy" then
      match oc i with
      | .posted => i :: runDelayedSends oc rest (i + 1)
      | .raised => [i]
    else
      runDelayedSends oc rest (i + 1)

/-- The whole body of the delay script after its sleep: re-check idleness,
then, if idle, run the send loop; if not idle, do nothing. -/
def delayedTaskAttempts (file : ActivityFile) (session_id : String)
    (delay now : Int) (snap : List (String × TierCfg))
    (oc : Nat → PostOutcome) : List Nat :=
  if scriptIsIdle file session_id delay now then runDelayedSends oc snap 0
  else []

/-- Snapshot positions named "ntfy" (the posts the script would attempt if
nothing raised). -/
def ntfyPositions : List (String × TierCfg) → Nat → List Nat
  | [], _ => []
  | (name, _) :: rest, i =>
    if name == "ntfy" then i :: ntfyPositions rest (i + 1)
    else ntfyPositions rest (i + 1)

/-- One parsed hook event (a JSON object on stdin).  `tool_name_present` and
`stop_hook_present` model `"tool_name" in input_data` /
`"stop_hook_active" in input_data`. -/
structure HookEvent where
  tool_name_present : Bool
  stop_hook_present : Bool
  session_id : Option String
  title : Option String
  message : Option String

/-- Input to `main`: either not valid JSON (`json.JSONDecodeError`) or a
parsed event. -/
inductive HookInput
  | malformed
  | event (ev : HookEvent)

/-- `main` (src/tiered_notifier.py:313-351): malformed input exits 1; an
event with a tool-name or stop-hook marker records activity (when the session
id is truthy) and exits 0; any other event routes through
`send_tiered_notification` and exits 0 iff it returned true, with any escaped
exception caught by `except Exception` and turned into exit 1.  Returns
(exit code, activity file afterwards, router result if one was returned). -/
def mainRun (inp : HookInput) (cfg : NotificationConfig)
    (env : String → TierBehavior) (file : ActivityFile) (now : Int) :
    Nat × ActivityFile × Option TieredResult :=
  match inp with
  | .malformed => (1, file, none)
  | .event ev =>
    if ev.tool_name_present || ev.stop_hook_present then
      if truthy ev.session_id then
        (0, mark_activity file (ev.session_id.getD "") now, none)
      else
        (0, file, none)
    else
      match send_tiered_notification cfg env ev.session_id with
      | .ok r => (if r.success then 0 else 1, file, some r)
      | .error _ => (1, file, none)

/-- Contents of the activity file as a byte-level observer sees them while a
writer is in progress. -/
inductive FileBytes
  | absent
  | truncated
  | complete (m : List (String × Int))
  deriving DecidableEq

/-- The successive observable states of the activity file during the write in
`mark_activity` (src/tiered_notifier.py:139-140): `open(path, "w")` truncates
the file in place, then `json.dump` fills it.  There is no temporary file and
no rename. -/
def inPlaceWriteStates (m : List (String × Int)) : List FileBytes :=
  [FileBytes.truncated, FileBytes.complete m]

/-- Whether a reader's `json.load` succeeds on the observed bytes (a missing
file is not read at all, so it does not count as unparsable). -/
def parsableBytes : FileBytes → Bool
  | .absent => true
  | .truncated => false
  | .complete _ => true

/-! ### Helper lemmas -/

theorem assocGet_setEntry_self {α : Type} (m : List (String × α)) (k : String)
    (v : α) : assocGet (setEntry m k v) k = some v := by
  induction m with
  | nil => simp [setEntry, assocGet]
  | cons p rest ih =>
    obtain ⟨a, b⟩ := p
    by_cases h : a = k <;> simp [setEntry, assocGet, h, ih]

theorem assocGet_setEntry_ne {α : Type} (m : List (String × α)) (k k' : String)
    (v : α) (h : k' ≠ k) : assocGet (setEntry m k v) k' = assocGet m k' := by
  induction m with
  | nil => simp [setEntry, assocGet, Ne.symm h]
  | cons p rest ih =>
    obtain ⟨a, b⟩ := p
    by_cases ha : a = k
    · subst ha
      simp [setEntry, assocGet, Ne.symm h]
    · simp [setEntry, assocGet, ha, ih]

theorem fileLookup_mark_self (f : ActivityFile)
    (hf : f ≠ ActivityFile.unparsable) (s : String) (t : Int) :
    fileLookup (mark_activity f s t) s = some t := by
  cases f with
  | missing => simp [mark_activity, fileLookup, assocGet_setEntry_self]
  | unparsable => exact absurd rfl hf
  | data m => simp [mark_activity, fileLookup, assocGet_setEntry_self]

theorem fileLookup_mark_ne (f : ActivityFile) (s k : String) (t : Int)
    (h : k ≠ s) : fileLookup (mark_activity f s t) k = fileLookup f k := by
  cases f <;>
    simp [mark_activity, fileLookup, assocGet_setEntry_ne _ _ _ _ h, assocGet,
      Ne.symm h]

theorem mark_ne_unparsable (f : ActivityFile)
    (hf : f ≠ ActivityFile.unparsable) (s : String) (t : Int) :
    mark_activity f s t ≠ ActivityFile.unparsable := by
  cases f <;> simp_all [mark_activity]

theorem markAll_cons (p : String × Int) (ps : List (String × Int))
    (f : ActivityFile) :
    markAll (p :: ps) f = markAll ps (mark_activity f p.1 p.2) := rfl

theorem markAll_frame (ps : List (String × Int)) (f : ActivityFile)
    (k : String) (hk : k ∉ ps.map Prod.fst) :
    fileLookup (markAll ps f) k = fileLookup f k := by
  induction ps generalizing f with
  | nil => rfl
  | cons p rest ih =>
    simp only [List.map_cons, List.mem_cons, not_or] at hk
    rw [markAll_cons, ih _ hk.2, fileLookup_mark_ne _ _ _ _ hk.1]

theorem markAll_mem (ps : List (String × Int)) (f : ActivityFile)
    (hf : f ≠ ActivityFile.unparsable) (hnd : (ps.map Prod.fst).Nodup) :
    ∀ p ∈ ps, fileLookup (markAll ps f) p.1 = some p.2 := by
  induction ps generalizing f with
  | nil => intro p hp; cases hp
  | cons q rest ih =>
    intro p hp
    simp only [List.map_cons, List.nodup_cons] at hnd
    rcases List.mem_cons.mp hp with h | h
    · subst h
      rw [markAll_cons, markAll_frame rest _ _ hnd.1,
        fileLookup_mark_self f hf]
    · exact ih (mark_activity f q.1 q.2)
        (mark_ne_unparsable f hf _ _) hnd.2 p h

theorem runImmediate_ok_iff (env : String → TierBehavior) :
    ∀ (l : List String) (s : Bool) (ats : List String),
      runImmediate env l = Except.ok (s, ats) →
      (s = true ↔ ∃ t ∈ l, (env t).known = true ∧ (env t).available = true
        ∧ (env t).send = Except.ok true) := by
  intro l
  induction l with
  | nil =>
    intro s ats h
    simp only [runImmediate, Except.ok.injEq, Prod.mk.injEq] at h
    simp [← h.1]
  | cons t rest ih =>
    intro s ats h
    by_cases hka : ((env t).known && (env t).available) = true
    · rw [runImmediate, if_pos hka] at h
      rcases hsend : (env t).send with e | b
      · rw [hsend] at h; cases h
      · rw [hsend] at h
        rcases hrest : runImmediate env rest with e | pr
        · rw [hrest] at h; cases h
        · obtain ⟨s', ats'⟩ := pr
          rw [hrest] at h
          simp only [Except.ok.injEq, Prod.mk.injEq] at h
          obtain ⟨hb, -⟩ := h
          subst hb
          rw [Bool.and_eq_true] at hka
          constructor
          · intro hs
            rcases Bool.or_eq_true_iff.mp hs with hb | hs'
            · exact ⟨t, List.mem_cons_self t rest, hka.1, hka.2,
                by rw [hsend, hb]⟩
            · obtain ⟨u, hu, h1, h2, h3⟩ := (ih s' ats' hrest).mp hs'
              exact ⟨u, List.mem_cons_of_mem t hu, h1, h2, h3⟩
          · rintro ⟨u, hu, h1, h2, h3⟩
            rcases List.mem_cons.mp hu with hu | hu
            · subst hu
              rw [hsend] at h3
              cases h3
              simp
            · have := (ih s' ats' hrest).mpr ⟨u, hu, h1, h2, h3⟩
              simp [this]
    · rw [runImmediate, if_neg hka] at h
      rw [ih s ats h]
      rw [Bool.and_eq_true] at hka
      constructor
      · rintro ⟨u, hu, h1, h2, h3⟩
        exact ⟨u, List.mem_cons_of_mem t hu, h1, h2, h3⟩
      · rintro ⟨u, hu, h1, h2, h3⟩
        rcases List.mem_cons.mp hu with hu | hu
        · subst hu; exact absurd ⟨h1, h2⟩ hka
        · exact ⟨u, hu, h1, h2, h3⟩

theorem runDelayedSends_all_posted (oc : Nat → PostOutcome)
    (h : ∀ i, oc i = PostOutcome.posted) :
    ∀ (snap : List (String × TierCfg)) (i : Nat),
      runDelayedSends oc snap i = ntfyPositions snap i := by
  intro snap
  induction snap with
  | nil => intro i; rfl
  | cons p rest ih =>
    intro i
    obtain ⟨name, c⟩ := p
    by_cases hn : (name == "ntfy") = true <;>
      simp [runDelayedSends, ntfyPositions, hn, h i, ih]

/-- Shape of any non-raising `send_tiered_notification` call: the immediate
loop returned `(s, ats)`, and the result records them together with the
scheduling decision. -/
theorem send_tiered_ok_elim (cfg : NotificationConfig)
    (env : String → TierBehavior) (sid : Option String) (r : TieredResult)
    (h : send_tiered_notification cfg env sid = Except.ok r) :
    ∃ s ats, runImmediate env (immediateTiers cfg) = Except.ok (s, ats)
      ∧ r = ⟨s, ats,
          if truthy sid && !cfg.delayed_tiers.isEmpty then
            some (snapshotTiers cfg)
          else none⟩ := by
  unfold send_tiered_notification at h
  split at h
  · cases h
  · next s ats heq =>
    injection h with h2
    exact ⟨s, ats, heq, h2.symm⟩

/-! ### Claim theorems -/

/-- C2: `is_session_idle` returns false exactly when the file holds an entry
for the session whose age is at most the threshold, and returns true when the
file is missing, when it is unparsable, when the session has no entry, and
when `now - last_activity > threshold`. -/
theorem C2_is_idle_char (file : ActivityFile) (sid : String) (th now : Int) :
    (is_session_idle file sid th now = false ↔
      ∃ last, fileLookup file sid = some last ∧ now - last ≤ th)
    ∧ (file = ActivityFile.missing → is_session_idle file sid th now = true)
    ∧ (file = ActivityFile.unparsable → is_session_idle file sid th now = true)
    ∧ (fileLookup file sid = none → is_session_idle file sid th now = true)
    ∧ (∀ last, fileLookup file sid = some last → now - last > th →
        is_session_idle file sid th now = true) := by
  refine ⟨?_, ?_, ?_, ?_, ?_⟩
  · cases file with
    | missing => simp [is_session_idle, fileLookup]
    | unparsable => simp [is_session_idle, fileLookup]
    | data m =>
      rcases hg : assocGet m sid with - | last <;>
        simp [is_session_idle, fileLookup, hg]
  · rintro rfl; rfl
  · rintro rfl; rfl
  · cases file with
    | missing => intro _; rfl
    | unparsable => intro _; rfl
    | data m =>
      intro hg
      simp only [fileLookup] at hg
      simp [is_session_idle, hg]
  · cases file with
    | missing => intro last h; cases h
    | unparsable => intro last h; cases h
    | data m =>
      intro last hg hage
      simp only [fileLookup] at hg
      simp [is_session_idle, hg, hage]

/-- C2 witness: a fresh entry (age 5 ≤ threshold 30) makes the session not
idle. -/
theorem C2_is_idle_char_witness :
    is_session_idle (ActivityFile.data [("s", 5)]) "s" 30 10 = false :=
  (C2_is_idle_char (ActivityFile.data [("s", 5)]) "s" 30 10).1.mpr
    ⟨5, by decide, by decide⟩

/-- C3 counterexample: the claim says a check at exactly `T + threshold`
returns true, but after `mark_activity` at `T = 0` a check at
`now = T + threshold = 30` with threshold 30 computes `30 - 0 > 30`, which is
false, so `is_session_idle` returns false there. -/
theorem C3_counterexample :
    is_session_idle (mark_activity ActivityFile.missing "s" 0) "s" 30 30
      = false := by decide

/-- C3 amended: after the last `mark_activity` at time `T` (the prior file
being readable or absent), a check is idle iff it happens strictly after
`T + threshold`: checks before and exactly at `T + threshold` return false,
and checks strictly after return true. -/
theorem C3_amended_idle_transition (file : ActivityFile)
    (hf : file ≠ ActivityFile.unparsable) (s : String) (T th now : Int) :
    (is_session_idle (mark_activity file s T) s th now = true ↔
      T + th < now) := by
  have hl := fileLookup_mark_self file hf s T
  rcases hm : mark_activity file s T with - | - | m
  · simp [hm, fileLookup] at hl
  · exact absurd hm (mark_ne_unparsable file hf s T)
  · rw [hm] at hl
    simp only [fileLookup] at hl
    simp [is_session_idle, hl]
    omega

/-- C3 amended witness: mark at `T = 0`, threshold 30, check at 31. -/
theorem C3_amended_idle_transition_witness :
    (ActivityFile.missing ≠ ActivityFile.unparsable)
    ∧ (is_session_idle (mark_activity ActivityFile.missing "s" 0) "s" 30 31
        = true ↔ (0 : Int) + 30 < 31) :=
  ⟨by decide, C3_amended_idle_transition ActivityFile.missing (by decide)
    "s" 0 30 31⟩

/-- C4: the claim says the desktop tier's `send_notification` never raises and
converts a missing helper executable into `false`.  The code catches only
`subprocess.CalledProcessError`, so a missing `terminal-notifier` (or a
missing `osascript` during the fallback) raises `FileNotFoundError` out of
`send_notification`; the sibling `is_available` catches `FileNotFoundError`,
and the fallback comment says it handles `terminal-notifier` failures, so the
code contradicts its own intent (code bug).  The push tier does satisfy the
claim: a `requests.RequestException` becomes `false` and an HTTP 200 becomes
`true`. -/
theorem C4_missing_executable_raises :
    macosSend ProcResult.fileNotFound ProcResult.ok
      = Except.error PyExc.fileNotFoundError
    ∧ macosSend ProcResult.calledProcessError ProcResult.fileNotFound
      = Except.error PyExc.fileNotFoundError
    ∧ ntfySend HttpResult.requestException = false
    ∧ ntfySend (HttpResult.status 200) = true
    ∧ ntfySend (HttpResult.status 500) = false :=
  ⟨rfl, rfl, rfl, rfl, rfl⟩

/-- C8 counterexample: the claim says `mark_activity` sets the entry for every
prior store contents, but when the prior file is unparsable the whole body
raises inside `json.load` and the `except` swallows it, so nothing is
written: the entry for "s" is not set to 7. -/
theorem C8_counterexample :
    mark_activity ActivityFile.unparsable "s" 7 = ActivityFile.unparsable
    ∧ fileLookup (mark_activity ActivityFile.unparsable "s" 7) "s" ≠ some 7 :=
  ⟨rfl, by decide⟩

/-- C8 amended: when the prior file is readable or absent (not unparsable),
`mark_activity` sets exactly the entry for `session_id` to the current time
and leaves every other session's entry unchanged; and marking distinct
sessions starting from a missing store yields exactly those entries with
their original timestamps. -/
theorem C8_amended_mark_frame_roundtrip (f : ActivityFile)
    (hf : f ≠ ActivityFile.unparsable) (s : String) (now : Int)
    (ps : List (String × Int)) (hnd : (ps.map Prod.fst).Nodup) :
    fileLookup (mark_activity f s now) s = some now
    ∧ (∀ k, k ≠ s → fileLookup (mark_activity f s now) k = fileLookup f k)
    ∧ (∀ p ∈ ps, fileLookup (markAll ps ActivityFile.missing) p.1
        = some p.2) :=
  ⟨fileLookup_mark_self f hf s now,
   fun k hk => fileLookup_mark_ne f s k now hk,
   markAll_mem ps ActivityFile.missing (by decide) hnd⟩

/-- C8 amended witness: mark on a store holding "a"; round-trip two distinct
sessions. -/
theorem C8_amended_mark_frame_roundtrip_witness :
    fileLookup (mark_activity (ActivityFile.data [("a", 1)]) "s" 5) "s"
      = some 5
    ∧ fileLookup (mark_activity (ActivityFile.data [("a", 1)]) "s" 5) "a"
      = fileLookup (ActivityFile.data [("a", 1)]) "a"
    ∧ fileLookup (markAll [("x", 1), ("y", 2)] ActivityFile.missing) "x"
      = some 1
    ∧ fileLookup (markAll [("x", 1), ("y", 2)] ActivityFile.missing) "y"
      = some 2 := by
  have h := C8_amended_mark_frame_roundtrip (ActivityFile.data [("a", 1)])
    (by decide) "s" 5 [("x", 1), ("y", 2)] (by decide)
  exact ⟨h.1, h.2.1 "a" (by decide), h.2.2 ("x", 1) (by decide),
    h.2.2 ("y", 2) (by decide)⟩

/-- C9: the claim says every writer rewrites the file via a temporary file and
atomic rename, so no unparsable intermediate state is ever observable.  The
code's `mark_activity` instead rewrites the store in place: `open(path, "w")`
truncates the existing file before `json.dump` fills it, so a concurrent
reader opening the file between those two steps observes a truncated file,
which `json.load` cannot parse.  The spec's own invariant ("partial/corrupt
file content is not [acceptable]") makes this a code bug. -/
theorem C9_in_place_write_observable_unparsable :
    FileBytes.truncated ∈ inPlaceWriteStates [("s", 0)]
    ∧ parsableBytes FileBytes.truncated = false := by
  exact ⟨List.mem_cons_self _ _, rfl⟩

/-- C1 counterexample: with enabled = ["macos"] and delayed = ["ntfy"], the
enabled ∩ delayed intersection is empty, so per the claim no handoff should
happen; but the code tests `if session_id and self.config.delayed_tiers:` and
snapshots `self.config.delayed_tiers` itself, so it hands off
`[("ntfy", {})]` anyway. -/
theorem C1_counterexample :
    send_tiered_notification ⟨["macos"], ["ntfy"], 30, []⟩
        (fun _ => ⟨true, true, Except.ok false⟩) (some "s")
      = Except.ok ⟨false, ["macos"], some [("ntfy", [])]⟩
    ∧ (["macos"] : List String).inter ["ntfy"] = [] :=
  ⟨rfl, by decide⟩

/-- C1 amended: the snapshot handed to the scheduler is the configured
delayed-tier list itself (each name paired with its config), not its
intersection with the enabled tiers, and the handoff happens exactly when a
truthy (non-None, non-empty) session id was supplied and the configured
delayed list is non-empty; whenever the call returns, the decision is
independent of the tiers' availability and send results. -/
theorem C1_amended_handoff (cfg : NotificationConfig)
    (env : String → TierBehavior) (sid : Option String) (r : TieredResult)
    (h : send_tiered_notification cfg env sid = Except.ok r) :
    (r.scheduled = if truthy sid && !cfg.delayed_tiers.isEmpty then
        some (snapshotTiers cfg)
      else none)
    ∧ ∀ (env2 : String → TierBehavior) (r2 : TieredResult),
        send_tiered_notification cfg env2 sid = Except.ok r2 →
        r2.scheduled = r.scheduled := by
  obtain ⟨s, ats, hr, hreq⟩ := send_tiered_ok_elim cfg env sid r h
  subst hreq
  refine ⟨rfl, ?_⟩
  intro env2 r2 h2
  obtain ⟨s2, ats2, hr2, hreq2⟩ := send_tiered_ok_elim cfg env2 sid r2 h2
  subst hreq2
  rfl

/-- C1 amended witness: the counterexample configuration, evaluated. -/
theorem C1_amended_handoff_witness :
    send_tiered_notification ⟨["macos"], ["ntfy"], 30, []⟩
        (fun _ => ⟨true, true, Except.ok false⟩) (some "s")
      = Except.ok ⟨false, ["macos"], some [("ntfy", [])]⟩
    ∧ (⟨false, ["macos"], some [("ntfy", [])]⟩ : TieredResult).scheduled
      = if truthy (some "s")
          && !(⟨["macos"], ["ntfy"], 30, []⟩ :
            NotificationConfig).delayed_tiers.isEmpty then
          some (snapshotTiers ⟨["macos"], ["ntfy"], 30, []⟩)
        else none :=
  ⟨rfl, (C1_amended_handoff ⟨["macos"], ["ntfy"], 30, []⟩
    (fun _ => ⟨true, true, Except.ok false⟩) (some "s") _ rfl).1⟩

/-- C5 counterexample: the session is judged idle and the snapshot has two
"ntfy" entries; the post at position 0 raises, and because one `try` wraps
the whole loop the entry at position 1 is never attempted — refuting "a
failure while sending through one tier does not prevent the send attempt on
each subsequent tier". -/
theorem C5_counterexample :
    delayedTaskAttempts ActivityFile.missing "s" 30 100
        [("ntfy", []), ("ntfy", [])]
        (fun i => if i == 0 then PostOutcome.raised else PostOutcome.posted)
      = [0]
    ∧ scriptIsIdle ActivityFile.missing "s" 30 100 = true
    ∧ (1 : Nat) ∉ ([0] : List Nat) :=
  ⟨rfl, rfl, by decide⟩

/-- C5 amended: when the session is judged idle, the snapshot entries that
match the known deferred implementation (name "ntfy") are attempted in
configured order as long as no send raises; a raised error is swallowed for
the loop as a whole and aborts the remaining attempts. -/
theorem C5_amended_all_attempted_when_no_raise (file : ActivityFile)
    (sid : String) (delay now : Int) (snap : List (String × TierCfg))
    (oc : Nat → PostOutcome)
    (hidle : scriptIsIdle file sid delay now = true)
    (h : ∀ i, oc i = PostOutcome.posted) :
    delayedTaskAttempts file sid delay now snap oc = ntfyPositions snap 0 := by
  unfold delayedTaskAttempts
  rw [if_pos hidle]
  exact runDelayedSends_all_posted oc h snap 0

/-- C5 amended witness: three snapshot entries, none raising: both "ntfy"
entries (positions 0 and 2) are attempted, in order. -/
theorem C5_amended_all_attempted_witness :
    scriptIsIdle ActivityFile.missing "s" 30 100 = true
    ∧ (∀ i : Nat, (fun _ : Nat => PostOutcome.posted) i = PostOutcome.posted)
    ∧ delayedTaskAttempts ActivityFile.missing "s" 30 100
        [("ntfy", []), ("macos", []), ("ntfy", [])]
        (fun _ => PostOutcome.posted)
      = ntfyPositions [("ntfy", []), ("macos", []), ("ntfy", [])] 0
    ∧ ntfyPositions [("ntfy", []), ("macos", []), ("ntfy", [])] 0 = [0, 2] :=
  ⟨rfl, fun _ => rfl,
   C5_amended_all_attempted_when_no_raise ActivityFile.missing "s" 30 100
     [("ntfy", []), ("macos", []), ("ntfy", [])] (fun _ => PostOutcome.posted)
     rfl (fun _ => rfl),
   rfl⟩

/-- C6: when `send_tiered_notification` returns, its Bool is true iff some
enabled non-delayed tier that is a known key and reports available had its
send return true (inclusive-OR over the immediate attempts); and with an
empty enabled-tier set it returns false having attempted no sends. -/
theorem C6_success_iff (cfg : NotificationConfig)
    (env : String → TierBehavior) (sid : Option String) (r : TieredResult)
    (h : send_tiered_notification cfg env sid = Except.ok r) :
    (r.success = true ↔ ∃ t ∈ immediateTiers cfg, (env t).known = true
      ∧ (env t).available = true ∧ (env t).send = Except.ok true)
    ∧ (cfg.enabled_tiers = [] → r.success = false ∧ r.attempts = []) := by
  obtain ⟨s, ats, hr, hreq⟩ := send_tiered_ok_elim cfg env sid r h
  subst hreq
  constructor
  · exact runImmediate_ok_iff env (immediateTiers cfg) s ats hr
  · intro he
    have hi : immediateTiers cfg = [] := by simp [immediateTiers, he]
    rw [hi] at hr
    simp only [runImmediate, Except.ok.injEq, Prod.mk.injEq] at hr
    exact ⟨hr.1.symm, hr.2.symm⟩

/-- C6 witness: tier "a" fails, tier "b" succeeds; the call returns true. -/
theorem C6_success_iff_witness :
    send_tiered_notification ⟨["a", "b"], [], 30, []⟩
        (fun t => if t == "b" then ⟨true, true, Except.ok true⟩
          else ⟨true, true, Except.ok false⟩) none
      = Except.ok ⟨true, ["a", "b"], none⟩
    ∧ (⟨true, ["a", "b"], none⟩ : TieredResult).success = true := by
  refine ⟨rfl, ?_⟩
  have h := C6_success_iff ⟨["a", "b"], [], 30, []⟩
    (fun t => if t == "b" then ⟨true, true, Except.ok true⟩
      else ⟨true, true, Except.ok false⟩) none ⟨true, ["a", "b"], none⟩ rfl
  exact h.1.mpr ⟨"b", by decide, rfl, rfl, rfl⟩

/-- C7 counterexample: tier "a" is immediate and its send returned true
during the run, but tier "b"'s send then raised; `main`'s
`except Exception` turns the escaped error into exit 1, refuting "exits 0
exactly when at least one immediate tier succeeded". -/
theorem C7_counterexample :
    mainRun (HookInput.event ⟨false, false, none, none, none⟩)
        ⟨["a", "b"], [], 30, []⟩
        (fun t => if t == "a" then ⟨true, true, Except.ok true⟩
          else ⟨true, true, Except.error PyExc.fileNotFoundError⟩)
        ActivityFile.missing 0
      = (1, ActivityFile.missing, none)
    ∧ ((fun t : String => if t == "a" then
          (⟨true, true, Except.ok true⟩ : TierBehavior)
        else ⟨true, true, Except.error PyExc.fileNotFoundError⟩) "a").send
      = Except.ok true
    ∧ "a" ∈ immediateTiers ⟨["a", "b"], [], 30, []⟩ :=
  ⟨rfl, rfl, by decide⟩

/-- C7 amended: the exit code is always 0 or 1; malformed input exits 1; an
event with a tool-name or stop-hook marker exits 0 with no router call; any
other event exits 0 iff the router returned true, and exits 1 when the
router call raised (even if an immediate tier's send had already returned
true). -/
theorem C7_amended_exit_codes (cfg : NotificationConfig)
    (env : String → TierBehavior) (file : ActivityFile) (now : Int) :
    (∀ inp, (mainRun inp cfg env file now).1 = 0
      ∨ (mainRun inp cfg env file now).1 = 1)
    ∧ (mainRun HookInput.malformed cfg env file now).1 = 1
    ∧ (∀ ev : HookEvent, (ev.tool_name_present || ev.stop_hook_present) = true →
        (mainRun (HookInput.event ev) cfg env file now).1 = 0
        ∧ (mainRun (HookInput.event ev) cfg env file now).2.2 = none)
    ∧ (∀ ev : HookEvent,
        (ev.tool_name_present || ev.stop_hook_present) = false →
        ∀ r : TieredResult,
          send_tiered_notification cfg env ev.session_id = Except.ok r →
          ((mainRun (HookInput.event ev) cfg env file now).1 = 0 ↔
            r.success = true))
    ∧ (∀ ev : HookEvent,
        (ev.tool_name_present || ev.stop_hook_present) = false →
        ∀ e : PyExc,
          send_tiered_notification cfg env ev.session_id = Except.error e →
          (mainRun (HookInput.event ev) cfg env file now).1 = 1) := by
  refine ⟨?_, rfl, ?_, ?_, ?_⟩
  · intro inp
    cases inp with
    | malformed => exact Or.inr rfl
    | event ev =>
      cases hm : (ev.tool_name_present || ev.stop_hook_present) with
      | true =>
        cases ht : truthy ev.session_id with
        | true => exact Or.inl (by simp [mainRun, hm, ht])
        | false => exact Or.inl (by simp [mainRun, hm, ht])
      | false =>
        rcases hs : send_tiered_notification cfg env ev.session_id with e | r
        · exact Or.inr (by simp [mainRun, hm, hs])
        · cases hv : r.success with
          | true => exact Or.inl (by simp [mainRun, hm, hs, hv])
          | false => exact Or.inr (by simp [mainRun, hm, hs, hv])
  · intro ev hm
    cases ht : truthy ev.session_id with
    | true => exact ⟨by simp [mainRun, hm, ht], by simp [mainRun, hm, ht]⟩
    | false => exact ⟨by simp [mainRun, hm, ht], by simp [mainRun, hm, ht]⟩
  · intro ev hm r hs
    cases hv : r.success with
    | true => simp [mainRun, hm, hs, hv]
    | false => simp [mainRun, hm, hs, hv]
  · intro ev hm e hs
    simp [mainRun, hm, hs]

/-- C7 amended witness: a notification event with one succeeding immediate
tier exits 0. -/
theorem C7_amended_exit_codes_witness :
    ((false || false) = false)
    ∧ send_tiered_notification ⟨["a"], [], 30, []⟩
        (fun _ => ⟨true, true, Except.ok true⟩) none
      = Except.ok ⟨true, ["a"], none⟩
    ∧ (mainRun (HookInput.event ⟨false, false, none, none, none⟩)
        ⟨["a"], [], 30, []⟩ (fun _ => ⟨true, true, Except.ok true⟩)
        ActivityFile.missing 0).1 = 0 := by
  refine ⟨rfl, rfl, ?_⟩
  have h := C7_amended_exit_codes ⟨["a"], [], 30, []⟩
    (fun _ => ⟨true, true, Except.ok true⟩) ActivityFile.missing 0
  exact (h.2.2.2.1 ⟨false, false, none, none, none⟩ rfl
    ⟨true, ["a"], none⟩ rfl).mpr rfl

/-- C10: an empty-string session id behaves at `main` exactly like an absent
one: the whole run is equal to the run with no session id; an activity event
with session id "" leaves the store untouched and exits 0; and a
notification call with session id "" schedules no deferred dispatch even
when delayed tiers are configured. -/
theorem C10_empty_session_like_absent (cfg : NotificationConfig)
    (env : String → TierBehavior) (file : ActivityFile) (now : Int)
    (tp sp : Bool) (t m : Option String) :
    mainRun (HookInput.event ⟨tp, sp, some "", t, m⟩) cfg env file now
      = mainRun (HookInput.event ⟨tp, sp, none, t, m⟩) cfg env file now
    ∧ mainRun (HookInput.event ⟨true, sp, some "", t, m⟩) cfg env file now
      = (0, file, none)
    ∧ (∀ r : TieredResult,
        send_tiered_notification cfg env (some "") = Except.ok r →
        r.scheduled = none) := by
  refine ⟨rfl, rfl, ?_⟩
  intro r hr
  obtain ⟨s, ats, hrun, hreq⟩ := send_tiered_ok_elim cfg env (some "") r hr
  subst hreq
  rfl

/-- C10 witness: delayed tiers are configured, yet session id "" records no
activity and schedules nothing. -/
theorem C10_empty_session_like_absent_witness :
    mainRun (HookInput.event ⟨true, false, some "", none, none⟩)
        ⟨["a"], ["ntfy"], 30, []⟩ (fun _ => ⟨true, true, Except.ok true⟩)
        ActivityFile.missing 0
      = (0, ActivityFile.missing, none)
    ∧ send_tiered_notification ⟨["a"], ["ntfy"], 30, []⟩
        (fun _ => ⟨true, true, Except.ok true⟩) (some "")
      = Except.ok ⟨true, ["a"], none⟩
    ∧ (⟨true, ["a"], none⟩ : TieredResult).scheduled = none := by
  have h := C10_empty_session_like_absent ⟨["a"], ["ntfy"], 30, []⟩
    (fun _ => ⟨true, true, Except.ok true⟩) ActivityFile.missing 0 true false
    none none
  exact ⟨h.2.1, rfl, h.2.2 ⟨true, ["a"], none⟩ rfl⟩

end TieredNotifier
